import Mathlib

/-!
Verification development for the KQOAuth request core (kqoauthrequest.cpp):
OAuth 1.0 parameter collection, base-string construction and HMAC-SHA1 signing.
QString values are modelled as Lean `String`s, QByteArray values as `List Nat`
byte sequences, and the mutable private object as an explicit `RequestState`
record threaded through the operations.
-/

namespace KQOAuth

/-- UTF-8 encoding of a single character as its list of byte values. -/
def utf8Char (c : Char) : List Nat :=
  let n := c.toNat
  if n < 128 then [n]
  else if n < 2048 then [192 + n / 64, 128 + n % 64]
  else if n < 65536 then [224 + n / 4096, 128 + n / 64 % 64, 128 + n % 64]
  else [240 + n / 262144, 128 + n / 4096 % 64, 128 + n / 64 % 64, 128 + n % 64]

/-- Byte sequence of a string (QString::toUtf8 / the bytes a QByteArray holds). -/
def strBytes (s : String) : List Nat :=
  s.data.flatMap utf8Char

/-- Modelled from the spec: the unreserved characters of the OAuth/URL
percent-encoding rule used by QUrl::toPercentEncoding (Qt code, not in src/):
A-Z, a-z, 0-9, hyphen, dot, underscore, tilde, given here by byte value. -/
def isUnreservedByte (b : Nat) : Bool :=
  (65 ≤ b && b ≤ 90) || (97 ≤ b && b ≤ 122) || (48 ≤ b && b ≤ 57) ||
    b == 45 || b == 46 || b == 95 || b == 126

/-- Uppercase hexadecimal digit byte for a value below 16. -/
def hexUpperDigit (n : Nat) : Nat :=
  if n < 10 then 48 + n else 55 + n

/-- Modelled from the spec: percent-encoding of one byte; unreserved bytes pass
through unchanged, every other byte becomes a percent sign followed by two
uppercase hexadecimal digits. -/
def pencByte (b : Nat) : List Nat :=
  if isUnreservedByte b then [b] else [37, hexUpperDigit (b / 16), hexUpperDigit (b % 16)]

/-- Modelled from the spec: QUrl::toPercentEncoding (Qt code, not in src/),
percent-encoding the UTF-8 bytes of a string into a byte sequence. -/
def toPercentEncodingB (s : String) : List Nat :=
  (strBytes s).flatMap pencByte

/-- A QString built back from ASCII bytes (all percent-encoded output is ASCII). -/
def bytesToString (bs : List Nat) : String :=
  String.mk (bs.map Char.ofNat)

/-- QString(QUrl::toPercentEncoding(s)), the string form of the encoded bytes,
as used for the oauth_callback parameter value. -/
def toPercentEncodingS (s : String) : String :=
  bytesToString (toPercentEncodingB s)

/-- Modelled from the spec: the endpoint/callback URL values (QUrl, a Qt class
not in src/). `beforeQuery` is the URL text up to the query component,
`query` the query component when present, `valid` models QUrl::isValid
(an empty URL is invalid in Qt). -/
structure QUrl where
  beforeQuery : String
  query : Option String
  valid : Bool
deriving DecidableEq

/-- QUrl::toString(), the full string form of the URL. -/
def QUrl.toStringAll (u : QUrl) : String :=
  u.beforeQuery ++ (match u.query with | some q => "?" ++ q | none => "")

/-- QUrl::toString(QUrl::RemoveQuery), the URL with its query component stripped. -/
def QUrl.toStringRemoveQuery (u : QUrl) : String :=
  u.beforeQuery

/-- QUrl::isEmpty. -/
def QUrl.isEmpty (u : QUrl) : Bool :=
  u.toStringAll == ""

/-- Truncation to a 32-bit word. -/
def w32 (x : Nat) : Nat := x % 4294967296

/-- Left rotation of a 32-bit word (valid for inputs below 2^32). -/
def rotl32 (n x : Nat) : Nat := w32 (x * 2 ^ n + x / 2 ^ (32 - n))

/-- Big-endian packing of bytes into 32-bit words. -/
def bytesToWordsBE : List Nat → List Nat
  | a :: b :: c :: d :: rest => (((a * 256 + b) * 256 + c) * 256 + d) :: bytesToWordsBE rest
  | _ => []

/-- Little-endian packing of bytes into 32-bit words. -/
def bytesToWordsLE : List Nat → List Nat
  | a :: b :: c :: d :: rest => (a + 256 * (b + 256 * (c + 256 * d))) :: bytesToWordsLE rest
  | _ => []

/-- Big-endian bytes of a 32-bit word. -/
def wordToBytesBE (x : Nat) : List Nat :=
  [x / 16777216 % 256, x / 65536 % 256, x / 256 % 256, x % 256]

/-- Little-endian bytes of a 32-bit word. -/
def wordToBytesLE (x : Nat) : List Nat :=
  [x % 256, x / 256 % 256, x / 65536 % 256, x / 16777216 % 256]

/-- Big-endian 8-byte encoding of a length. -/
def lenToBytesBE (n : Nat) : List Nat :=
  [n / 2 ^ 56 % 256, n / 2 ^ 48 % 256, n / 2 ^ 40 % 256, n / 2 ^ 32 % 256,
   n / 2 ^ 24 % 256, n / 2 ^ 16 % 256, n / 2 ^ 8 % 256, n % 256]

/-- Little-endian 8-byte encoding of a length. -/
def lenToBytesLE (n : Nat) : List Nat :=
  (lenToBytesBE n).reverse

/-- Merkle-Damgard padding shared by MD5 and SHA-1: append the byte 0x80, zero
bytes until the length is 56 mod 64, then the 8-byte bit length (big-endian
for SHA-1, little-endian for MD5). -/
def mdPad (msg : List Nat) (lenBE : Bool) : List Nat :=
  let L := msg.length
  let zeros := (120 - (L + 1) % 64) % 64
  msg ++ [128] ++ List.replicate zeros 0 ++
    (if lenBE then lenToBytesBE (8 * L) else lenToBytesLE (8 * L))

/-- Split a byte list into 64-byte chunks. -/
def chunks64 (l : List Nat) : List (List Nat) :=
  if h : l = [] then []
  else l.take 64 :: chunks64 (l.drop 64)
termination_by l.length
decreasing_by
  simp only [List.length_drop]
  have : 0 < l.length := List.length_pos.mpr h
  omega

/-- SHA-1 message-schedule extension: appends one word per step. -/
def sha1Extend (w : List Nat) : Nat → List Nat
  | 0 => w
  | n + 1 =>
    let w' := sha1Extend w n
    let m := w'.length
    w' ++ [rotl32 1 ((w'.getD (m - 3) 0) ^^^ (w'.getD (m - 8) 0) ^^^
                     (w'.getD (m - 14) 0) ^^^ (w'.getD (m - 16) 0))]

/-- The SHA-1 round function. -/
def sha1F (i b c d : Nat) : Nat :=
  if i < 20 then (b &&& c) ||| ((b ^^^ 4294967295) &&& d)
  else if i < 40 then b ^^^ c ^^^ d
  else if i < 60 then (b &&& c) ||| (b &&& d) ||| (c &&& d)
  else b ^^^ c ^^^ d

/-- The SHA-1 round constants. -/
def sha1K (i : Nat) : Nat :=
  if i < 20 then 0x5A827999 else if i < 40 then 0x6ED9EBA1
  else if i < 60 then 0x8F1BBCDC else 0xCA62C1D6

/-- One SHA-1 compression step over a 64-byte block. -/
def sha1Block (h : Nat × Nat × Nat × Nat × Nat) (block : List Nat) :
    Nat × Nat × Nat × Nat × Nat :=
  let w := sha1Extend (bytesToWordsBE block) 64
  let fin := (List.range 80).foldl
    (fun st i =>
      let (a, b, c, d, e) := st
      let t := w32 (rotl32 5 a + sha1F i b c d + e + sha1K i + w.getD i 0)
      (t, a, rotl32 30 b, c, d))
    h
  let (a, b, c, d, e) := fin
  let (h0, h1, h2, h3, h4) := h
  (w32 (h0 + a), w32 (h1 + b), w32 (h2 + c), w32 (h3 + d), w32 (h4 + e))

/-- Modelled from the spec: the SHA-1 digest (20 bytes) of a byte sequence. -/
def sha1 (msg : List Nat) : List Nat :=
  let padded := mdPad msg true
  let fin := (chunks64 padded).foldl sha1Block
    (0x67452301, 0xEFCDAB89, 0x98BADCFE, 0x10325476, 0xC3D2E1F0)
  let (h0, h1, h2, h3, h4) := fin
  wordToBytesBE h0 ++ wordToBytesBE h1 ++ wordToBytesBE h2 ++
    wordToBytesBE h3 ++ wordToBytesBE h4

/-- The MD5 sine-derived round constants. -/
def md5K : List Nat :=
  [0xd76aa478, 0xe8c7b756, 0x242070db, 0xc1bdceee,
   0xf57c0faf, 0x4787c62a, 0xa8304613, 0xfd469501,
   0x698098d8, 0x8b44f7af, 0xffff5bb1, 0x895cd7be,
   0x6b901122, 0xfd987193, 0xa679438e, 0x49b40821,
   0xf61e2562, 0xc040b340, 0x265e5a51, 0xe9b6c7aa,
   0xd62f105d, 0x02441453, 0xd8a1e681, 0xe7d3fbc8,
   0x21e1cde6, 0xc33707d6, 0xf4d50d87, 0x455a14ed,
   0xa9e3e905, 0xfcefa3f8, 0x676f02d9, 0x8d2a4c8a,
   0xfffa3942, 0x8771f681, 0x6d9d6122, 0xfde5380c,
   0xa4beea44, 0x4bdecfa9, 0xf6bb4b60, 0xbebfbc70,
   0x289b7ec6, 0xeaa127fa, 0xd4ef3085, 0x04881d05,
   0xd9d4d039, 0xe6db99e5, 0x1fa27cf8, 0xc4ac5665,
   0xf4292244, 0x432aff97, 0xab9423a7, 0xfc93a039,
   0x655b59c3, 0x8f0ccc92, 0xffeff47d, 0x85845dd1,
   0x6fa87e4f, 0xfe2ce6e0, 0xa3014314, 0x4e0811a1,
   0xf7537e82, 0xbd3af235, 0x2ad7d2bb, 0xeb86d391]

/-- The MD5 per-round left-rotation amounts. -/
def md5S : List Nat :=
  [7, 12, 17, 22, 7, 12, 17, 22, 7, 12, 17, 22, 7, 12, 17, 22,
   5, 9, 14, 20, 5, 9, 14, 20, 5, 9, 14, 20, 5, 9, 14, 20,
   4, 11, 16, 23, 4, 11, 16, 23, 4, 11, 16, 23, 4, 11, 16, 23,
   6, 10, 15, 21, 6, 10, 15, 21, 6, 10, 15, 21, 6, 10, 15, 21]

/-- One MD5 compression step over a 64-byte block. -/
def md5Block (h : Nat × Nat × Nat × Nat) (block : List Nat) : Nat × Nat × Nat × Nat :=
  let m := bytesToWordsLE block
  let fin := (List.range 64).foldl
    (fun st i =>
      let (a, b, c, d) := st
      let f :=
        if i < 16 then (b &&& c) ||| ((b ^^^ 4294967295) &&& d)
        else if i < 32 then (d &&& b) ||| ((d ^^^ 4294967295) &&& c)
        else if i < 48 then b ^^^ c ^^^ d
        else c ^^^ (b ||| (d ^^^ 4294967295))
      let g :=
        if i < 16 then i
        else if i < 32 then (5 * i + 1) % 16
        else if i < 48 then (3 * i + 5) % 16
        else (7 * i) % 16
      let t := w32 (f + a + md5K.getD i 0 + m.getD g 0)
      (d, w32 (b + rotl32 (md5S.getD i 0) t), b, c))
    h
  let (a, b, c, d) := fin
  let (h0, h1, h2, h3) := h
  (w32 (h0 + a), w32 (h1 + b), w32 (h2 + c), w32 (h3 + d))

/-- Modelled from the spec: the MD5 digest (16 bytes) of a byte sequence. -/
def md5 (msg : List Nat) : List Nat :=
  let padded := mdPad msg false
  let fin := (chunks64 padded).foldl md5Block
    (0x67452301, 0xefcdab89, 0x98badcfe, 0x10325476)
  let (a, b, c, d) := fin
  wordToBytesLE a ++ wordToBytesLE b ++ wordToBytesLE c ++ wordToBytesLE d

/-- Lowercase hexadecimal digit byte for a value below 16. -/
def hexLowerDigit (n : Nat) : Nat :=
  if n < 10 then 48 + n else 87 + n

/-- Lowercase hex string of a byte sequence (QByteArray::toHex). -/
def toHexLower (bs : List Nat) : String :=
  bytesToString (bs.flatMap fun b => [hexLowerDigit (b / 16), hexLowerDigit (b % 16)])

/-- Modelled from the spec: the nonce value is the hex-encoded MD5 digest of the
timestamp string (QCryptographicHash, Qt code not in src/). -/
def md5hex (s : String) : String :=
  toHexLower (md5 (strBytes s))

/-- The base64 alphabet. -/
def base64Alphabet : List Char :=
  "ABCDEFGHIJKLMNOPQRSTUVWXYZabcdefghijklmnopqrstuvwxyz0123456789+/".data

/-- One base64 alphabet character. -/
def base64Char (n : Nat) : Char :=
  base64Alphabet.getD n 'A'

/-- Modelled from the spec: standard base64 encoding with padding. -/
def base64encode : List Nat → String
  | a :: b :: c :: rest =>
    let n := a * 65536 + b * 256 + c
    String.mk [base64Char (n / 262144), base64Char (n / 4096 % 64),
               base64Char (n / 64 % 64), base64Char (n % 64)] ++ base64encode rest
  | [a, b] =>
    let n := a * 65536 + b * 256
    String.mk [base64Char (n / 262144), base64Char (n / 4096 % 64),
               base64Char (n / 64 % 64), '=']
  | [a] =>
    let n := a * 65536
    String.mk [base64Char (n / 262144), base64Char (n / 4096 % 64), '=', '=']
  | [] => ""

/-- Modelled from the spec: HMAC-SHA1 (RFC 2104 with SHA-1, block size 64 bytes). -/
def hmacSha1 (key msg : List Nat) : List Nat :=
  let k0 := if 64 < key.length then sha1 key else key
  let k := k0 ++ List.replicate (64 - k0.length) 0
  sha1 ((k.map fun b => b ^^^ 92) ++ sha1 ((k.map fun b => b ^^^ 54) ++ msg))

/-- Modelled from the spec: KQOAuthUtils::hmac_sta1 (kqoauthutils.cpp, not in
src/) computes HMAC-SHA1 over the base string with the given key and returns
the base64-encoded signature value. -/
def KQOAuthUtils.hmac_sta1 (baseString : List Nat) (key : String) : String :=
  base64encode (hmacSha1 (strBytes key) baseString)


/-- Executable lexicographic comparison of character lists; it agrees with the
lexicographic order underlying the order on `String`. -/
def listLtChars : List Char → List Char → Bool
  | [], [] => false
  | [], _ :: _ => true
  | _ :: _, [] => false
  | a :: as, b :: bs => if a < b then true else if b < a then false else listLtChars as bs

theorem listLtChars_iff : ∀ as bs : List Char, listLtChars as bs = true ↔ as < bs
  | [], [] => iff_of_false (by simp [listLtChars]) (fun h => nomatch h)
  | [], _ :: _ => iff_of_true rfl (List.Lex.nil)
  | _ :: _, [] => iff_of_false (by simp [listLtChars]) (fun h => nomatch h)
  | a :: as, b :: bs => by
    unfold listLtChars
    split_ifs with h1 h2
    · exact iff_of_true rfl (List.Lex.rel h1)
    · refine iff_of_false (by simp) (fun h => ?_)
      cases h with
      | cons _ => exact lt_irrefl a h2
      | rel hab => exact h1 hab
    · have hab : a = b := le_antisymm (not_lt.mp h2) (not_lt.mp h1)
      subst hab
      rw [listLtChars_iff as bs]
      constructor
      · exact fun h => List.Lex.cons h
      · intro h
        cases h with
        | cons ht => exact ht
        | rel hab => exact absurd hab h1

/-- Executable model of QString::operator<, lexicographic on characters. -/
def stringLt (a b : String) : Bool :=
  listLtChars a.data b.data

theorem stringLt_iff (a b : String) : stringLt a b = true ↔ a < b := by
  rw [String.lt_iff_toList_lt]
  exact listLtChars_iff a.data b.data

/-- Modelled from the spec: the OAUTH_KEY_* parameter-name constants from
kqoauthglobals.h (not in src/); the spec names the parameters directly. -/
def OAUTH_KEY_CALLBACK : String := "oauth_callback"

/-- Modelled from the spec: the oauth_signature_method parameter name. -/
def OAUTH_KEY_SIGNATURE_METHOD : String := "oauth_signature_method"

/-- Modelled from the spec: the oauth_consumer_key parameter name. -/
def OAUTH_KEY_CONSUMER_KEY : String := "oauth_consumer_key"

/-- Modelled from the spec: the oauth_version parameter name. -/
def OAUTH_KEY_VERSION : String := "oauth_version"

/-- Modelled from the spec: the oauth_timestamp parameter name. -/
def OAUTH_KEY_TIMESTAMP : String := "oauth_timestamp"

/-- Modelled from the spec: the oauth_nonce parameter name. -/
def OAUTH_KEY_NONCE : String := "oauth_nonce"

/-- Modelled from the spec: the oauth_signature parameter name. -/
def OAUTH_KEY_SIGNATURE : String := "oauth_signature"

/-- The KQOAuthRequest::RequestType enumerator values, kept as integers since
the source stores a possibly out-of-range cast value in the field. -/
def KQOAuthRequest.TemporaryCredentials : Int := 0

/-- The ResourceOwnerAuth enumerator value. -/
def KQOAuthRequest.ResourceOwnerAuth : Int := 1

/-- The AccessToken enumerator value. -/
def KQOAuthRequest.AccessToken : Int := 2

/-- The KQOAuthRequest::RequestHttpMethod enumeration. -/
inductive RequestHttpMethod
  | GET
  | POST
deriving DecidableEq

/-- The mutable state of a KQOAuthRequest together with its private object
(kqoauthrequest_p.h fields as used by kqoauthrequest.cpp). `additionalParams`
models the KQOAuthAdditionalParameters mapping (typedef not in src/; per the
spec a string-to-string mapping with unique keys) as its entry list in the
mapping's natural ascending key order, which is the order keys()/values()
iterate it in. `requestParameters` is the working parameter list. -/
structure RequestState where
  requestType : Int
  oauthRequestEndpoint : QUrl
  oauthCallbackUrl : QUrl
  oauthConsumerKey : String
  oauthConsumerSecretKey : String
  oauthTokenSecret : String
  oauthSignatureMethod : String
  oauthHttpMethod : String
  oauthVersion : String
  oauthTimestamp_ : String
  oauthNonce_ : String
  additionalParams : List (String × String)
  requestParameters : List (String × String)
deriving DecidableEq

/-- KQOAuthRequestPrivate::oauthTimestamp (lines 149-155): the pre-set
timestamp when non-empty, otherwise the current Unix-time string, which the
embedding passes in explicitly as `now`. -/
def KQOAuthRequestPrivate.oauthTimestamp (st : RequestState) (now : String) : String :=
  if st.oauthTimestamp_ ≠ "" then st.oauthTimestamp_ else now

/-- KQOAuthRequestPrivate::oauthNonce (lines 157-170): the pre-set nonce when
non-empty, otherwise the hex MD5 digest of the timestamp string. -/
def KQOAuthRequestPrivate.oauthNonce (st : RequestState) (now : String) : String :=
  if st.oauthNonce_ ≠ "" then st.oauthNonce_
  else
    let nonceTimestamp := st.oauthTimestamp_
    let nonceTimestamp :=
      if nonceTimestamp = "" then KQOAuthRequestPrivate.oauthTimestamp st now
      else nonceTimestamp
    md5hex nonceTimestamp

/-- KQOAuthRequestPrivate::insertAdditionalParams (lines 66-75): appends every
(key, value) entry of the additional-parameter mapping to the given list. -/
def KQOAuthRequestPrivate.insertAdditionalParams (st : RequestState)
    (requestParams : List (String × String)) : List (String × String) :=
  requestParams ++ st.additionalParams

/-- KQOAuthRequestPrivate::prepareRequest (lines 43-64): for TemporaryCredentials
appends oauth_callback (percent-encoded callback URL), oauth_signature_method,
oauth_consumer_key, oauth_version, oauth_timestamp, oauth_nonce and then the
additional parameters to the stored parameter list; the other request types
append nothing. Always returns true. -/
def KQOAuthRequestPrivate.prepareRequest (st : RequestState) (now : String) :
    RequestState × Bool :=
  if st.requestType = KQOAuthRequest.TemporaryCredentials then
    let ps := st.requestParameters ++
      [(OAUTH_KEY_CALLBACK, toPercentEncodingS st.oauthCallbackUrl.toStringAll),
       (OAUTH_KEY_SIGNATURE_METHOD, st.oauthSignatureMethod),
       (OAUTH_KEY_CONSUMER_KEY, st.oauthConsumerKey),
       (OAUTH_KEY_VERSION, st.oauthVersion),
       (OAUTH_KEY_TIMESTAMP, KQOAuthRequestPrivate.oauthTimestamp st now),
       (OAUTH_KEY_NONCE, KQOAuthRequestPrivate.oauthNonce st now)]
    ({ st with requestParameters := KQOAuthRequestPrivate.insertAdditionalParams st ps },
     true)
  else (st, true)

/-- normalizedParameterSort (lines 86-97): the comparator handed to qSort;
compares the keys with QString::operator<, and the values when the keys are
equal. QString comparison is the executable `stringLt`, which agrees with the
order on `String` (stringLt_iff). -/
def normalizedParameterSort (left right : String × String) : Bool :=
  let keyLeft := left.1
  let valueLeft := left.2
  let keyRight := right.1
  let valueRight := right.2
  if keyLeft == keyRight then stringLt valueLeft valueRight
  else stringLt keyLeft keyRight

/-- The comparator as the non-strict relation qSort sorts by: `a` may precede
`b` exactly when `b` is not strictly below `a`. -/
def qSortLe (a b : String × String) : Prop :=
  normalizedParameterSort b a = false

instance : DecidableRel qSortLe := fun a b => by
  unfold qSortLe
  infer_instance

/-- qSort(begin, end, normalizedParameterSort) (lines 111-114): with a strict
total comparator the sorted permutation is unique, so insertion sort by the
induced non-strict relation models it faithfully. -/
def qSortParameters (l : List (String × String)) : List (String × String) :=
  List.insertionSort qSortLe l

/-- KQOAuthRequestPrivate::encodedParamaterList (lines 126-147): joins the
percent-encoded key, the literal token %3D and the percent-encoded value of
each pair, separating successive pairs with the literal token %26, via a
fold that carries the first-iteration flag of the source loop. -/
def KQOAuthRequestPrivate.encodedParamaterList
    (parameters : List (String × String)) : List Nat :=
  (parameters.foldl
    (fun acc parameter =>
      let resultList := if acc.2 then acc.1 else acc.1 ++ strBytes "%26"
      (resultList ++ toPercentEncodingB parameter.1 ++ strBytes "%3D" ++
         toPercentEncodingB parameter.2, false))
    ([], true)).1

/-- KQOAuthRequestPrivate::requestBaseString (lines 98-124): prepares the
parameter list, assembles method & encoded-query-stripped-URL &, sorts the
stored parameter list for TemporaryCredentials only, and appends the encoded
parameter list. The state is returned because prepareRequest and qSort both
mutate the stored list. -/
def KQOAuthRequestPrivate.requestBaseString (st : RequestState) (now : String) :
    RequestState × List Nat :=
  let st1 := (KQOAuthRequestPrivate.prepareRequest st now).1
  let baseString := strBytes st1.oauthHttpMethod ++ strBytes "&"
  let baseString := baseString ++
    toPercentEncodingB st1.oauthRequestEndpoint.toStringRemoveQuery ++ strBytes "&"
  let st2 :=
    if st1.requestType = KQOAuthRequest.TemporaryCredentials then
      { st1 with requestParameters := qSortParameters st1.requestParameters }
    else st1
  (st2, baseString ++ KQOAuthRequestPrivate.encodedParamaterList st2.requestParameters)

/-- KQOAuthRequestPrivate::oauthSignature (lines 81-84): HMAC-SHA1 of the base
string with the key consumerSecret & tokenSecret. -/
def KQOAuthRequestPrivate.oauthSignature (st : RequestState) (now : String) :
    RequestState × String :=
  let p := KQOAuthRequestPrivate.requestBaseString st now
  (p.1, KQOAuthUtils.hmac_sta1 p.2 (st.oauthConsumerSecretKey ++ "&" ++ st.oauthTokenSecret))

/-- KQOAuthRequestPrivate::signRequest (lines 77-79): appends the
(oauth_signature, signature) pair to the stored parameter list. -/
def KQOAuthRequestPrivate.signRequest (st : RequestState) (now : String) : RequestState :=
  let p := KQOAuthRequestPrivate.oauthSignature st now
  { p.1 with requestParameters := p.1.requestParameters ++ [(OAUTH_KEY_SIGNATURE, p.2)] }

/-- KQOAuthRequestPrivate::validateRequest (lines 172-198): for
TemporaryCredentials all of endpoint, callback, consumer key, nonce,
signature method, timestamp and version must be non-empty; the other request
types (and out-of-range values) are always invalid. -/
def KQOAuthRequestPrivate.validateRequest (st : RequestState) : Bool :=
  if st.requestType = KQOAuthRequest.TemporaryCredentials then
    if st.oauthRequestEndpoint.isEmpty || st.oauthCallbackUrl.isEmpty ||
       (st.oauthConsumerKey == "") || (st.oauthNonce_ == "") ||
       (st.oauthSignatureMethod == "") || (st.oauthTimestamp_ == "") ||
       (st.oauthVersion == "") then
      false
    else true
  else if st.requestType = KQOAuthRequest.ResourceOwnerAuth then false
  else if st.requestType = KQOAuthRequest.AccessToken then false
  else false

/-- KQOAuthRequest::initRequest (lines 220-234): returns immediately when the
endpoint URL is invalid; otherwise stores the request type (warning only for
out-of-range values) and endpoint, then caches timestamp and nonce in turn. -/
def KQOAuthRequest.initRequest (st : RequestState) (rtype : Int)
    (requestEndpoint : QUrl) (now : String) : RequestState :=
  if requestEndpoint.valid = false then st
  else
    let st1 := { st with requestType := rtype, oauthRequestEndpoint := requestEndpoint }
    let st2 := { st1 with oauthTimestamp_ := KQOAuthRequestPrivate.oauthTimestamp st1 now }
    { st2 with oauthNonce_ := KQOAuthRequestPrivate.oauthNonce st2 now }

/-- KQOAuthRequest::setHttpMethod (lines 269-283): stores the method token;
the POST branch falls through into the default branch, which only warns. -/
def KQOAuthRequest.setHttpMethod (st : RequestState) (httpMethod : RequestHttpMethod) :
    RequestState :=
  let requestHttpMethodString :=
    match httpMethod with
    | RequestHttpMethod.GET => "GET"
    | RequestHttpMethod.POST => "POST"
  { st with oauthHttpMethod := requestHttpMethodString }

/-- KQOAuthRequest::requestParameters (lines 289-307): logs a validation
message (advisory only, the result is unused for control flow), signs the
request, and renders every stored pair as the UTF-8 bytes of key=value. -/
def KQOAuthRequest.requestParameters (st : RequestState) (now : String) :
    RequestState × List (List Nat) :=
  let st' := KQOAuthRequestPrivate.signRequest st now
  (st', st'.requestParameters.map fun p => strBytes (p.1 ++ "=" ++ p.2))

/-- Occurrences of a key in a parameter list. -/
def countKey (k : String) (l : List (String × String)) : Nat :=
  l.countP fun p => p.1 == k


/-- The protocol parameters prepareRequest appends for TemporaryCredentials,
followed by the additional parameters: the list the stored parameters grow by. -/
def tempParams (st : RequestState) (now : String) : List (String × String) :=
  [(OAUTH_KEY_CALLBACK, toPercentEncodingS st.oauthCallbackUrl.toStringAll),
   (OAUTH_KEY_SIGNATURE_METHOD, st.oauthSignatureMethod),
   (OAUTH_KEY_CONSUMER_KEY, st.oauthConsumerKey),
   (OAUTH_KEY_VERSION, st.oauthVersion),
   (OAUTH_KEY_TIMESTAMP, KQOAuthRequestPrivate.oauthTimestamp st now),
   (OAUTH_KEY_NONCE, KQOAuthRequestPrivate.oauthNonce st now)] ++ st.additionalParams

theorem normalizedParameterSort_iff (a b : String × String) :
    normalizedParameterSort a b = true ↔ (a.1 < b.1 ∨ (a.1 = b.1 ∧ a.2 < b.2)) := by
  rcases a with ⟨ak, av⟩
  rcases b with ⟨bk, bv⟩
  simp only [normalizedParameterSort]
  by_cases h : ak = bk
  · subst h
    simp [stringLt_iff, lt_irrefl]
  · simp [h, stringLt_iff]

theorem normalizedParameterSort_irrefl (a : String × String) :
    normalizedParameterSort a a = false := by
  rw [Bool.eq_false_iff]
  intro h
  rw [normalizedParameterSort_iff] at h
  rcases h with h | ⟨_, h⟩ <;> exact lt_irrefl _ h

theorem normalizedParameterSort_asymm (a b : String × String)
    (h : normalizedParameterSort a b = true) : normalizedParameterSort b a = false := by
  rw [Bool.eq_false_iff]
  intro h'
  rw [normalizedParameterSort_iff] at h h'
  rcases h with h | ⟨he, hv⟩ <;> rcases h' with h' | ⟨he', hv'⟩
  · exact lt_asymm h h'
  · exact (ne_of_lt h) he'.symm
  · exact (ne_of_lt h') he.symm
  · exact lt_asymm hv hv'

theorem normalizedParameterSort_trichotomy (a b : String × String) :
    normalizedParameterSort a b = true ∨ normalizedParameterSort b a = true ∨ a = b := by
  rcases lt_trichotomy a.1 b.1 with h | h | h
  · exact Or.inl ((normalizedParameterSort_iff a b).mpr (Or.inl h))
  · rcases lt_trichotomy a.2 b.2 with h2 | h2 | h2
    · exact Or.inl ((normalizedParameterSort_iff a b).mpr (Or.inr ⟨h, h2⟩))
    · exact Or.inr (Or.inr (Prod.ext h h2))
    · exact Or.inr (Or.inl ((normalizedParameterSort_iff b a).mpr (Or.inr ⟨h.symm, h2⟩)))
  · exact Or.inr (Or.inl ((normalizedParameterSort_iff b a).mpr (Or.inl h)))

theorem normalizedParameterSort_trans (a b c : String × String)
    (hab : normalizedParameterSort a b = true) (hbc : normalizedParameterSort b c = true) :
    normalizedParameterSort a c = true := by
  rw [normalizedParameterSort_iff] at hab hbc ⊢
  rcases hab with h1 | ⟨h1e, h1v⟩ <;> rcases hbc with h2 | ⟨h2e, h2v⟩
  · exact Or.inl (lt_trans h1 h2)
  · exact Or.inl (h2e ▸ h1)
  · exact Or.inl (lt_of_le_of_lt (le_of_eq h1e) h2)
  · exact Or.inr ⟨h1e.trans h2e, lt_trans h1v h2v⟩

theorem normalizedParameterSort_eq_false_iff (a b : String × String) :
    normalizedParameterSort a b = false ↔ (b.1 < a.1 ∨ (b.1 = a.1 ∧ b.2 ≤ a.2)) := by
  rw [Bool.eq_false_iff]
  constructor
  · intro h
    rcases lt_trichotomy a.1 b.1 with hk | hk | hk
    · exact absurd ((normalizedParameterSort_iff a b).mpr (Or.inl hk)) h
    · rcases lt_trichotomy a.2 b.2 with hv | hv | hv
      · exact absurd ((normalizedParameterSort_iff a b).mpr (Or.inr ⟨hk, hv⟩)) h
      · exact Or.inr ⟨hk.symm, le_of_eq hv.symm⟩
      · exact Or.inr ⟨hk.symm, le_of_lt hv⟩
    · exact Or.inl hk
  · intro h htrue
    rw [normalizedParameterSort_iff] at htrue
    rcases h with h | ⟨he, hv⟩
    · rcases htrue with ht | ⟨hte, _⟩
      · exact lt_asymm h ht
      · exact (ne_of_lt h) hte.symm
    · rcases htrue with ht | ⟨_, htv⟩
      · exact (ne_of_lt ht) he.symm
      · exact absurd htv (not_lt.mpr hv)

instance : IsTotal (String × String) qSortLe :=
  ⟨fun a b => by
    unfold qSortLe
    by_cases h : normalizedParameterSort a b = true
    · exact Or.inl (normalizedParameterSort_asymm a b h)
    · exact Or.inr (Bool.eq_false_iff.mpr h)⟩

instance : IsTrans (String × String) qSortLe :=
  ⟨fun a b c hab hbc => by
    unfold qSortLe at hab hbc ⊢
    rw [normalizedParameterSort_eq_false_iff] at hab hbc ⊢
    rcases hab with h1 | ⟨h1e, h1v⟩ <;> rcases hbc with h2 | ⟨h2e, h2v⟩
    · exact Or.inl (lt_trans h1 h2)
    · exact Or.inl (h2e ▸ h1)
    · exact Or.inl (lt_of_le_of_lt (le_of_eq h1e) h2)
    · exact Or.inr ⟨h1e.trans h2e, le_trans h1v h2v⟩⟩

theorem qSortParameters_perm (l : List (String × String)) :
    List.Perm (qSortParameters l) l :=
  List.perm_insertionSort qSortLe l

theorem qSortParameters_idem (l : List (String × String)) :
    qSortParameters (qSortParameters l) = qSortParameters l :=
  List.Sorted.insertionSort_eq (List.sorted_insertionSort qSortLe l)

theorem countKey_append (k : String) (l₁ l₂ : List (String × String)) :
    countKey k (l₁ ++ l₂) = countKey k l₁ + countKey k l₂ := by
  simp [countKey, List.countP_append]

theorem countKey_qSortParameters (k : String) (l : List (String × String)) :
    countKey k (qSortParameters l) = countKey k l :=
  (qSortParameters_perm l).countP_eq _

theorem prepareRequest_temp (st : RequestState) (now : String)
    (h : st.requestType = KQOAuthRequest.TemporaryCredentials) :
    KQOAuthRequestPrivate.prepareRequest st now =
      ({ st with requestParameters := st.requestParameters ++ tempParams st now }, true) := by
  simp [KQOAuthRequestPrivate.prepareRequest, KQOAuthRequestPrivate.insertAdditionalParams,
        tempParams, h]

theorem prepareRequest_other (st : RequestState) (now : String)
    (h : st.requestType ≠ KQOAuthRequest.TemporaryCredentials) :
    KQOAuthRequestPrivate.prepareRequest st now = (st, true) := by
  simp [KQOAuthRequestPrivate.prepareRequest, h]

theorem requestBaseString_temp (st : RequestState) (now : String)
    (h : st.requestType = KQOAuthRequest.TemporaryCredentials) :
    KQOAuthRequestPrivate.requestBaseString st now =
      ({ st with requestParameters :=
          qSortParameters (st.requestParameters ++ tempParams st now) },
       strBytes st.oauthHttpMethod ++ strBytes "&" ++
         toPercentEncodingB st.oauthRequestEndpoint.toStringRemoveQuery ++ strBytes "&" ++
         KQOAuthRequestPrivate.encodedParamaterList
           (qSortParameters (st.requestParameters ++ tempParams st now))) := by
  rw [KQOAuthRequestPrivate.requestBaseString, prepareRequest_temp st now h]
  simp [h, List.append_assoc]

theorem requestBaseString_other (st : RequestState) (now : String)
    (h : st.requestType ≠ KQOAuthRequest.TemporaryCredentials) :
    KQOAuthRequestPrivate.requestBaseString st now =
      (st,
       strBytes st.oauthHttpMethod ++ strBytes "&" ++
         toPercentEncodingB st.oauthRequestEndpoint.toStringRemoveQuery ++ strBytes "&" ++
         KQOAuthRequestPrivate.encodedParamaterList st.requestParameters) := by
  rw [KQOAuthRequestPrivate.requestBaseString, prepareRequest_other st now h]
  simp [h, List.append_assoc]

theorem signRequest_eq (st : RequestState) (now : String) :
    KQOAuthRequestPrivate.signRequest st now =
      { (KQOAuthRequestPrivate.requestBaseString st now).1 with
        requestParameters :=
          (KQOAuthRequestPrivate.requestBaseString st now).1.requestParameters ++
            [(OAUTH_KEY_SIGNATURE, (KQOAuthRequestPrivate.oauthSignature st now).2)] } := rfl

theorem signRequest_temp (st : RequestState) (now : String)
    (h : st.requestType = KQOAuthRequest.TemporaryCredentials) :
    KQOAuthRequestPrivate.signRequest st now =
      { st with requestParameters :=
          qSortParameters (st.requestParameters ++ tempParams st now) ++
            [(OAUTH_KEY_SIGNATURE, (KQOAuthRequestPrivate.oauthSignature st now).2)] } := by
  rw [signRequest_eq, requestBaseString_temp st now h]

theorem requestParameters_fst (st : RequestState) (now : String) :
    (KQOAuthRequest.requestParameters st now).1 = KQOAuthRequestPrivate.signRequest st now :=
  rfl

theorem intercalate_cons_flatMap (sep x : List Nat) (l : List (List Nat)) :
    List.intercalate sep (x :: l) = x ++ l.flatMap (fun y => sep ++ y) := by
  induction l generalizing x with
  | nil => simp [List.intercalate]
  | cons y t ih =>
    have h1 : List.intercalate sep (x :: y :: t) =
        x ++ (sep ++ List.intercalate sep (y :: t)) := by
      simp [List.intercalate]
    rw [h1, ih y]
    simp [List.append_assoc]

theorem encodedParamaterList_go (ps : List (String × String)) (acc : List Nat) :
    (ps.foldl
      (fun acc parameter =>
        let resultList := if acc.2 then acc.1 else acc.1 ++ strBytes "%26"
        (resultList ++ toPercentEncodingB parameter.1 ++ strBytes "%3D" ++
           toPercentEncodingB parameter.2, false))
      (acc, false)).1 =
      acc ++ ps.flatMap (fun p =>
        strBytes "%26" ++ toPercentEncodingB p.1 ++ strBytes "%3D" ++
          toPercentEncodingB p.2) := by
  induction ps generalizing acc with
  | nil => simp
  | cons p ps ih =>
    rw [List.foldl_cons]
    refine (ih (acc ++ strBytes "%26" ++ toPercentEncodingB p.1 ++ strBytes "%3D" ++
      toPercentEncodingB p.2)).trans ?_
    simp [List.append_assoc]

theorem encodedParamaterList_eq_intercalate (ps : List (String × String)) :
    KQOAuthRequestPrivate.encodedParamaterList ps =
      List.intercalate (strBytes "%26")
        (ps.map fun p =>
          toPercentEncodingB p.1 ++ strBytes "%3D" ++ toPercentEncodingB p.2) := by
  cases ps with
  | nil => rfl
  | cons p ps =>
    rw [KQOAuthRequestPrivate.encodedParamaterList, List.foldl_cons]
    refine (encodedParamaterList_go ps (([] : List Nat) ++ toPercentEncodingB p.1 ++
      strBytes "%3D" ++ toPercentEncodingB p.2)).trans ?_
    rw [List.map_cons, intercalate_cons_flatMap]
    simp [List.flatMap_map, Function.comp, List.append_assoc]

theorem isUnreservedByte_char_iff (c : Char) :
    isUnreservedByte c.toNat = true ↔
      (('A' ≤ c ∧ c ≤ 'Z') ∨ ('a' ≤ c ∧ c ≤ 'z') ∨ ('0' ≤ c ∧ c ≤ '9') ∨
       c = '-' ∨ c = '.' ∨ c = '_' ∨ c = '~') := by
  have hAZ : ('A' ≤ c ∧ c ≤ 'Z') ↔ (65 ≤ c.toNat ∧ c.toNat ≤ 90) := by
    rw [Char.le_def, Char.le_def, UInt32.le_def, UInt32.le_def]
    simp only [BitVec.le_def]
    exact ⟨fun h => h, fun h => h⟩
  have haz : ('a' ≤ c ∧ c ≤ 'z') ↔ (97 ≤ c.toNat ∧ c.toNat ≤ 122) := by
    rw [Char.le_def, Char.le_def, UInt32.le_def, UInt32.le_def]
    simp only [BitVec.le_def]
    exact ⟨fun h => h, fun h => h⟩
  have h09 : ('0' ≤ c ∧ c ≤ '9') ↔ (48 ≤ c.toNat ∧ c.toNat ≤ 57) := by
    rw [Char.le_def, Char.le_def, UInt32.le_def, UInt32.le_def]
    simp only [BitVec.le_def]
    exact ⟨fun h => h, fun h => h⟩
  have hhyp : (c = '-') ↔ (c.toNat = 45) := by
    rw [Char.ext_iff, UInt32.ext_iff]
    exact ⟨fun h => h, fun h => h⟩
  have hdot : (c = '.') ↔ (c.toNat = 46) := by
    rw [Char.ext_iff, UInt32.ext_iff]
    exact ⟨fun h => h, fun h => h⟩
  have hund : (c = '_') ↔ (c.toNat = 95) := by
    rw [Char.ext_iff, UInt32.ext_iff]
    exact ⟨fun h => h, fun h => h⟩
  have htil : (c = '~') ↔ (c.toNat = 126) := by
    rw [Char.ext_iff, UInt32.ext_iff]
    exact ⟨fun h => h, fun h => h⟩
  rw [hAZ, haz, h09, hhyp, hdot, hund, htil]
  simp only [isUnreservedByte, Bool.or_eq_true, Bool.and_eq_true, decide_eq_true_eq,
    beq_iff_eq]
  omega

/-- C2: encodedParamaterList percent-encodes each key, appends the literal
token %3D, percent-encodes each value, and joins successive encoded pairs with
the literal token %26; percent-encoding passes the unreserved characters
A-Z a-z 0-9 - . _ ~ through unchanged and encodes every other byte of the
UTF-8 representation as % with two uppercase hex digits; and the encoding is
deterministic in the input list. -/
theorem C2_encoded_parameter_list :
    (∀ parameters : List (String × String),
      KQOAuthRequestPrivate.encodedParamaterList parameters =
        List.intercalate (strBytes "%26")
          (parameters.map fun p =>
            toPercentEncodingB p.1 ++ strBytes "%3D" ++ toPercentEncodingB p.2))
    ∧ (∀ s : String, toPercentEncodingB s = (strBytes s).flatMap pencByte)
    ∧ (∀ c : Char, isUnreservedByte c.toNat = true ↔
        (('A' ≤ c ∧ c ≤ 'Z') ∨ ('a' ≤ c ∧ c ≤ 'z') ∨ ('0' ≤ c ∧ c ≤ '9') ∨
         c = '-' ∨ c = '.' ∨ c = '_' ∨ c = '~'))
    ∧ (∀ b : Nat, isUnreservedByte b = true → pencByte b = [b])
    ∧ (∀ b : Nat, isUnreservedByte b = false →
        pencByte b = [37, hexUpperDigit (b / 16), hexUpperDigit (b % 16)])
    ∧ (∀ l₁ l₂ : List (String × String), l₁ = l₂ →
        KQOAuthRequestPrivate.encodedParamaterList l₁ =
          KQOAuthRequestPrivate.encodedParamaterList l₂) := by
  refine ⟨encodedParamaterList_eq_intercalate, fun s => rfl, isUnreservedByte_char_iff,
    ?_, ?_, ?_⟩
  · intro b h
    simp [pencByte, h]
  · intro b h
    simp [pencByte, h]
  · intro l₁ l₂ h
    rw [h]

/-- C2 witness: the theorem applied at concrete inputs, discharging the
hypotheses of its conditional components. -/
theorem C2_encoded_parameter_list_witness :
    isUnreservedByte 65 = true ∧ pencByte 65 = [65] ∧
    isUnreservedByte 32 = false ∧ pencByte 32 = [37, 50, 48] ∧
    KQOAuthRequestPrivate.encodedParamaterList [("b", "2"), ("a", "1")] =
      List.intercalate (strBytes "%26")
        ([("b", "2"), ("a", "1")].map fun p =>
          toPercentEncodingB p.1 ++ strBytes "%3D" ++ toPercentEncodingB p.2) :=
  ⟨by decide, C2_encoded_parameter_list.2.2.2.1 65 (by decide),
   by decide, (C2_encoded_parameter_list.2.2.2.2.1 32 (by decide)).trans (by decide),
   C2_encoded_parameter_list.1 [("b", "2"), ("a", "1")]⟩

/-- C3: the normalization comparator is a strict total order that compares by
key first and by value for equal keys, and sorting with it is idempotent. -/
theorem C3_comparator_strict_total_order :
    (∀ a b : String × String, normalizedParameterSort a b = true ↔
        (a.1 < b.1 ∨ (a.1 = b.1 ∧ a.2 < b.2)))
    ∧ (∀ a : String × String, normalizedParameterSort a a = false)
    ∧ (∀ a b : String × String,
        normalizedParameterSort a b = true → normalizedParameterSort b a = false)
    ∧ (∀ a b : String × String,
        normalizedParameterSort a b = true ∨ normalizedParameterSort b a = true ∨ a = b)
    ∧ (∀ a b c : String × String, normalizedParameterSort a b = true →
        normalizedParameterSort b c = true → normalizedParameterSort a c = true)
    ∧ (∀ l : List (String × String),
        qSortParameters (qSortParameters l) = qSortParameters l) :=
  ⟨normalizedParameterSort_iff, normalizedParameterSort_irrefl,
   normalizedParameterSort_asymm, normalizedParameterSort_trichotomy,
   normalizedParameterSort_trans, qSortParameters_idem⟩

/-- C3 witness: transitivity of the comparator at concrete pairs, hypotheses
discharged by evaluation. -/
theorem C3_comparator_strict_total_order_witness :
    normalizedParameterSort ("a", "1") ("c", "2") = true :=
  C3_comparator_strict_total_order.2.2.2.2.1 ("a", "1") ("b", "9") ("c", "2")
    (by decide) (by decide)

/-- C5: the signature is HMAC-SHA1 over the base string with the key
consumerSecret & tokenSecret, the separator being present even when the token
secret is empty. -/
theorem C5_signature_key (st : RequestState) (now : String) :
    (KQOAuthRequestPrivate.oauthSignature st now).2 =
      KQOAuthUtils.hmac_sta1 (KQOAuthRequestPrivate.requestBaseString st now).2
        (st.oauthConsumerSecretKey ++ "&" ++ st.oauthTokenSecret)
    ∧ (st.oauthTokenSecret = "" →
        (KQOAuthRequestPrivate.oauthSignature st now).2 =
          KQOAuthUtils.hmac_sta1 (KQOAuthRequestPrivate.requestBaseString st now).2
            (st.oauthConsumerSecretKey ++ "&")) := by
  constructor
  · rfl
  · intro h
    have h2 : st.oauthConsumerSecretKey ++ "&" ++ st.oauthTokenSecret =
        st.oauthConsumerSecretKey ++ "&" := by
      rw [h, String.append_empty]
    calc (KQOAuthRequestPrivate.oauthSignature st now).2
        = KQOAuthUtils.hmac_sta1 (KQOAuthRequestPrivate.requestBaseString st now).2
            (st.oauthConsumerSecretKey ++ "&" ++ st.oauthTokenSecret) := rfl
      _ = KQOAuthUtils.hmac_sta1 (KQOAuthRequestPrivate.requestBaseString st now).2
            (st.oauthConsumerSecretKey ++ "&") := by rw [h2]

theorem validateRequest_not_temp (st : RequestState)
    (h : st.requestType ≠ KQOAuthRequest.TemporaryCredentials) :
    KQOAuthRequestPrivate.validateRequest st = false := by
  unfold KQOAuthRequestPrivate.validateRequest
  rw [if_neg h]
  split_ifs <;> rfl

/-- C7: validateRequest is true exactly when the request type is
TemporaryCredentials and endpoint, callback, consumer key, nonce, signature
method, timestamp and version are all non-empty; ResourceOwnerAuth and
AccessToken always validate to false. -/
theorem C7_validate_request (st : RequestState) :
    (KQOAuthRequestPrivate.validateRequest st = true ↔
      (st.requestType = KQOAuthRequest.TemporaryCredentials ∧
       st.oauthRequestEndpoint.isEmpty = false ∧ st.oauthCallbackUrl.isEmpty = false ∧
       st.oauthConsumerKey ≠ "" ∧ st.oauthNonce_ ≠ "" ∧ st.oauthSignatureMethod ≠ "" ∧
       st.oauthTimestamp_ ≠ "" ∧ st.oauthVersion ≠ ""))
    ∧ ((st.requestType = KQOAuthRequest.ResourceOwnerAuth ∨
        st.requestType = KQOAuthRequest.AccessToken) →
       KQOAuthRequestPrivate.validateRequest st = false) := by
  constructor
  · by_cases h1 : st.requestType = KQOAuthRequest.TemporaryCredentials
    · unfold KQOAuthRequestPrivate.validateRequest
      rw [if_pos h1]
      by_cases h2 : (st.oauthRequestEndpoint.isEmpty || st.oauthCallbackUrl.isEmpty ||
          (st.oauthConsumerKey == "") || (st.oauthNonce_ == "") ||
          (st.oauthSignatureMethod == "") || (st.oauthTimestamp_ == "") ||
          (st.oauthVersion == "")) = true
      · rw [if_pos h2]
        simp only [Bool.or_eq_true, beq_iff_eq] at h2
        refine iff_of_false (by simp) ?_
        rintro ⟨-, he, hc, hk, hn, hs, ht, hv⟩
        rcases h2 with ((((((h2 | h2) | h2) | h2) | h2) | h2) | h2) <;> simp_all
      · rw [if_neg h2]
        simp only [Bool.or_eq_true, beq_iff_eq, not_or, Bool.not_eq_true] at h2
        obtain ⟨⟨⟨⟨⟨⟨he, hc⟩, hk⟩, hn⟩, hs⟩, ht⟩, hv⟩ := h2
        exact iff_of_true rfl ⟨h1, he, hc, hk, hn, hs, ht, hv⟩
    · rw [validateRequest_not_temp st h1]
      refine iff_of_false (by simp) ?_
      rintro ⟨ht, -⟩
      exact h1 ht
  · intro h
    apply validateRequest_not_temp
    rcases h with h | h <;> rw [h] <;> decide

/-- A fully populated TemporaryCredentials request state with pre-set
timestamp and nonce, used as a concrete input for witnesses. -/
def sampleEndpoint : QUrl :=
  { beforeQuery := "https://example.com/request_token", query := none, valid := true }

/-- The callback URL of the sample state. -/
def sampleCallback : QUrl :=
  { beforeQuery := "https://example.com/cb", query := none, valid := true }

/-- The sample request state itself. -/
def sampleState : RequestState :=
  { requestType := KQOAuthRequest.TemporaryCredentials
    oauthRequestEndpoint := sampleEndpoint
    oauthCallbackUrl := sampleCallback
    oauthConsumerKey := "ck"
    oauthConsumerSecretKey := "cs"
    oauthTokenSecret := ""
    oauthSignatureMethod := "HMAC_SHA1"
    oauthHttpMethod := "POST"
    oauthVersion := "1.0"
    oauthTimestamp_ := "1300000000"
    oauthNonce_ := "abc123"
    additionalParams := []
    requestParameters := [] }

/-- C7 witness: the sample state validates to true, every hypothesis of the
characterization discharged by evaluation. -/
theorem C7_validate_request_witness :
    KQOAuthRequestPrivate.validateRequest sampleState = true :=
  (C7_validate_request sampleState).1.mpr
    ⟨rfl, by decide, by decide, by decide, by decide, by decide, by decide, by decide⟩

/-- C5 witness: the sample state has an empty token secret and its signature
key is consumerSecret & with nothing after the separator. -/
theorem C5_signature_key_witness :
    sampleState.oauthTokenSecret = "" ∧
    (KQOAuthRequestPrivate.oauthSignature sampleState "1").2 =
      KQOAuthUtils.hmac_sta1 (KQOAuthRequestPrivate.requestBaseString sampleState "1").2
        (sampleState.oauthConsumerSecretKey ++ "&") :=
  ⟨rfl, (C5_signature_key sampleState "1").2 rfl⟩

/-- C1: the base string is the method token, a raw ampersand, the
percent-encoded query-stripped endpoint, a raw ampersand, and the encoded
parameter list, which is sorted by the normalization comparator exactly when
the request type is TemporaryCredentials; the stored method token is always
the uppercase GET or POST. -/
theorem C1_base_string_assembly :
    (∀ (st : RequestState) (now : String),
      (st.requestType = KQOAuthRequest.TemporaryCredentials →
        (KQOAuthRequestPrivate.requestBaseString st now).2 =
          strBytes st.oauthHttpMethod ++ strBytes "&" ++
            toPercentEncodingB st.oauthRequestEndpoint.toStringRemoveQuery ++ strBytes "&" ++
            KQOAuthRequestPrivate.encodedParamaterList
              (qSortParameters
                ((KQOAuthRequestPrivate.prepareRequest st now).1.requestParameters))) ∧
      (st.requestType ≠ KQOAuthRequest.TemporaryCredentials →
        (KQOAuthRequestPrivate.requestBaseString st now).2 =
          strBytes st.oauthHttpMethod ++ strBytes "&" ++
            toPercentEncodingB st.oauthRequestEndpoint.toStringRemoveQuery ++ strBytes "&" ++
            KQOAuthRequestPrivate.encodedParamaterList
              ((KQOAuthRequestPrivate.prepareRequest st now).1.requestParameters)))
    ∧ (∀ (st : RequestState) (m : RequestHttpMethod),
        (KQOAuthRequest.setHttpMethod st m).oauthHttpMethod = "GET" ∨
        (KQOAuthRequest.setHttpMethod st m).oauthHttpMethod = "POST") := by
  constructor
  · intro st now
    constructor
    · intro h
      rw [requestBaseString_temp st now h, prepareRequest_temp st now h]
    · intro h
      rw [requestBaseString_other st now h, prepareRequest_other st now h]
  · intro st m
    cases m
    · exact Or.inl rfl
    · exact Or.inr rfl

/-- C1 witness: the base-string shape at the sample state, the request-type
hypothesis discharged by rfl. -/
theorem C1_base_string_assembly_witness :
    (KQOAuthRequestPrivate.requestBaseString sampleState "1").2 =
      strBytes sampleState.oauthHttpMethod ++ strBytes "&" ++
        toPercentEncodingB sampleState.oauthRequestEndpoint.toStringRemoveQuery ++
        strBytes "&" ++
        KQOAuthRequestPrivate.encodedParamaterList
          (qSortParameters
            ((KQOAuthRequestPrivate.prepareRequest sampleState "1").1.requestParameters)) :=
  (C1_base_string_assembly.1 sampleState "1").1 rfl

/-- C4: for TemporaryCredentials, prepareRequest appends the percent-encoded
callback, signature method, consumer key, version, timestamp and nonce in
this fixed order, followed by the additional parameters in the mapping's
natural (ascending) key order, each as an unencoded pair. -/
theorem C4_prepare_request_order (st : RequestState) (now : String)
    (h : st.requestType = KQOAuthRequest.TemporaryCredentials)
    (_horder : List.Pairwise (fun a b : String × String => a.1 < b.1) st.additionalParams) :
    (KQOAuthRequestPrivate.prepareRequest st now).1.requestParameters =
      st.requestParameters ++
        [(OAUTH_KEY_CALLBACK, toPercentEncodingS st.oauthCallbackUrl.toStringAll),
         (OAUTH_KEY_SIGNATURE_METHOD, st.oauthSignatureMethod),
         (OAUTH_KEY_CONSUMER_KEY, st.oauthConsumerKey),
         (OAUTH_KEY_VERSION, st.oauthVersion),
         (OAUTH_KEY_TIMESTAMP, KQOAuthRequestPrivate.oauthTimestamp st now),
         (OAUTH_KEY_NONCE, KQOAuthRequestPrivate.oauthNonce st now)] ++
        st.additionalParams := by
  rw [prepareRequest_temp st now h]
  simp [tempParams, List.append_assoc]

/-- The sample state extended with two additional parameters in ascending key
order. -/
def sampleStateAdd : RequestState :=
  { sampleState with additionalParams := [("screen", "mobile"), ("zlast", "1")] }

/-- C4 witness: the appended order at the concrete sample state with two
additional parameters, hypotheses discharged by evaluation. -/
theorem C4_prepare_request_order_witness :
    sampleStateAdd.requestType = KQOAuthRequest.TemporaryCredentials ∧
    (KQOAuthRequestPrivate.prepareRequest sampleStateAdd "1").1.requestParameters =
      sampleStateAdd.requestParameters ++
        [(OAUTH_KEY_CALLBACK, toPercentEncodingS sampleStateAdd.oauthCallbackUrl.toStringAll),
         (OAUTH_KEY_SIGNATURE_METHOD, sampleStateAdd.oauthSignatureMethod),
         (OAUTH_KEY_CONSUMER_KEY, sampleStateAdd.oauthConsumerKey),
         (OAUTH_KEY_VERSION, sampleStateAdd.oauthVersion),
         (OAUTH_KEY_TIMESTAMP, KQOAuthRequestPrivate.oauthTimestamp sampleStateAdd "1"),
         (OAUTH_KEY_NONCE, KQOAuthRequestPrivate.oauthNonce sampleStateAdd "1")] ++
        sampleStateAdd.additionalParams :=
  ⟨rfl, C4_prepare_request_order sampleStateAdd "1" rfl
    (by
      simp only [sampleStateAdd, List.pairwise_cons, List.mem_singleton,
        List.not_mem_nil, List.Pairwise.nil, and_true, forall_eq]
      exact ⟨(stringLt_iff "screen" "zlast").mp (by decide), by simp⟩)⟩

/-- C8: a false validateRequest does not block requestParameters: the request
is still signed, with the oauth_signature pair appended, and the key=value
list of every stored pair is returned. -/
theorem C8_validation_nonblocking (st : RequestState) (now : String)
    (_h : KQOAuthRequestPrivate.validateRequest st = false) :
    (KQOAuthRequest.requestParameters st now).1.requestParameters =
        (KQOAuthRequestPrivate.requestBaseString st now).1.requestParameters ++
          [(OAUTH_KEY_SIGNATURE, (KQOAuthRequestPrivate.oauthSignature st now).2)]
    ∧ (KQOAuthRequest.requestParameters st now).2 =
        (KQOAuthRequest.requestParameters st now).1.requestParameters.map
          (fun p => strBytes (p.1 ++ "=" ++ p.2)) :=
  ⟨rfl, rfl⟩

/-- The sample state with an empty consumer key, which fails validation. -/
def invalidState : RequestState :=
  { sampleState with oauthConsumerKey := "" }

/-- C8 witness: the invalid sample state fails validation yet is signed, the
hypothesis discharged by evaluation. -/
theorem C8_validation_nonblocking_witness :
    KQOAuthRequestPrivate.validateRequest invalidState = false ∧
    (KQOAuthRequest.requestParameters invalidState "1").1.requestParameters =
      (KQOAuthRequestPrivate.requestBaseString invalidState "1").1.requestParameters ++
        [(OAUTH_KEY_SIGNATURE, (KQOAuthRequestPrivate.oauthSignature invalidState "1").2)] :=
  ⟨by decide, (C8_validation_nonblocking invalidState "1" (by decide)).1⟩

/-- An invalid endpoint URL. -/
def badEndpoint : QUrl :=
  { beforeQuery := "", query := none, valid := false }

/-- A state before initRequest: AccessToken type, no cached timestamp, a
pre-set nonce. -/
def preState : RequestState :=
  { sampleState with
    requestType := KQOAuthRequest.AccessToken
    oauthTimestamp_ := ""
    oauthNonce_ := "n" }

/-- C9 counterexample: with an invalid endpoint URL, initRequest does not
continue — it returns with the state unchanged, while the same call with a
valid endpoint does establish new state; so the invalid-endpoint condition is
not merely advisory and does change what state the call establishes. -/
theorem C9_counterexample :
    KQOAuthRequest.initRequest preState KQOAuthRequest.TemporaryCredentials
        badEndpoint "99" = preState ∧
    KQOAuthRequest.initRequest preState KQOAuthRequest.TemporaryCredentials
        sampleEndpoint "99" ≠ preState :=
  ⟨rfl, by decide⟩

/-- C9 as amended: an out-of-range request type is advisory only — initRequest
establishes exactly the same state apart from storing the given type — but an
invalid (or empty, hence invalid) endpoint URL makes initRequest return
immediately with the request state unchanged; no exception is raised in either
case. -/
theorem C9_amended_init_request (st : RequestState) (rtype rtype' : Int)
    (requestEndpoint : QUrl) (now : String) :
    (requestEndpoint.valid = false →
      KQOAuthRequest.initRequest st rtype requestEndpoint now = st)
    ∧ (requestEndpoint.valid = true →
      KQOAuthRequest.initRequest st rtype requestEndpoint now =
        { KQOAuthRequest.initRequest st rtype' requestEndpoint now with
          requestType := rtype }) := by
  constructor
  · intro h
    simp [KQOAuthRequest.initRequest, h]
  · intro h
    simp [KQOAuthRequest.initRequest, h, KQOAuthRequestPrivate.oauthTimestamp,
      KQOAuthRequestPrivate.oauthNonce]

/-- C9 witness: the amended claim applied at a concrete invalid endpoint and
an out-of-range request type, hypotheses discharged by rfl. -/
theorem C9_amended_init_request_witness :
    KQOAuthRequest.initRequest preState 5 badEndpoint "99" = preState :=
  (C9_amended_init_request preState 5 0 badEndpoint "99").1 rfl

theorem countKey_nil (k : String) : countKey k [] = 0 := rfl

theorem countKey_singleton (k a v : String) :
    countKey k [(a, v)] = if a = k then 1 else 0 := by
  simp [countKey, List.countP_cons]

theorem countKey_eq_zero_of_forall_ne (k : String) (l : List (String × String))
    (h : ∀ p ∈ l, p.1 ≠ k) : countKey k l = 0 := by
  unfold countKey
  rw [List.countP_eq_zero]
  intro p hp
  simpa using h p hp

theorem countKey_tempParams_eq (k : String) (st : RequestState) (now : String) :
    countKey k (tempParams st now) =
      countKey k
        [(OAUTH_KEY_CALLBACK, ""), (OAUTH_KEY_SIGNATURE_METHOD, ""),
         (OAUTH_KEY_CONSUMER_KEY, ""), (OAUTH_KEY_VERSION, ""),
         (OAUTH_KEY_TIMESTAMP, ""), (OAUTH_KEY_NONCE, "")] +
      countKey k st.additionalParams := by
  simp [tempParams, countKey, List.countP_append, List.countP_cons]
  omega

theorem tempParams_signRequest_temp (st : RequestState) (now now' : String)
    (h : st.requestType = KQOAuthRequest.TemporaryCredentials) :
    tempParams (KQOAuthRequestPrivate.signRequest st now) now' = tempParams st now' := by
  rw [signRequest_temp st now h]
  rfl

/-- C6 as amended: starting from a stored parameter list that is empty (as on
the first requestParameters() call) with no oauth_signature key among the
additional parameters, the signature is absent from the list the base string
is computed from, and signing appends it exactly once, last; the original
claim's "never" fails on repeated calls (see the counterexample). -/
theorem C6_amended_signature_once (st : RequestState) (now : String)
    (hempty : st.requestParameters = [])
    (hadd : countKey OAUTH_KEY_SIGNATURE st.additionalParams = 0) :
    countKey OAUTH_KEY_SIGNATURE
        ((KQOAuthRequestPrivate.requestBaseString st now).1.requestParameters) = 0
    ∧ (KQOAuthRequestPrivate.signRequest st now).requestParameters =
        (KQOAuthRequestPrivate.requestBaseString st now).1.requestParameters ++
          [(OAUTH_KEY_SIGNATURE, (KQOAuthRequestPrivate.oauthSignature st now).2)]
    ∧ countKey OAUTH_KEY_SIGNATURE
        ((KQOAuthRequestPrivate.signRequest st now).requestParameters) = 1 := by
  have hsig1 : countKey OAUTH_KEY_SIGNATURE
      [(OAUTH_KEY_SIGNATURE, (KQOAuthRequestPrivate.oauthSignature st now).2)] = 1 := by
    rw [countKey_singleton, if_pos rfl]
  have hbase : countKey OAUTH_KEY_SIGNATURE
      ((KQOAuthRequestPrivate.requestBaseString st now).1.requestParameters) = 0 := by
    by_cases h : st.requestType = KQOAuthRequest.TemporaryCredentials
    · rw [requestBaseString_temp st now h]
      show countKey OAUTH_KEY_SIGNATURE
        (qSortParameters (st.requestParameters ++ tempParams st now)) = 0
      rw [countKey_qSortParameters, countKey_append, hempty, countKey_nil,
        countKey_tempParams_eq, hadd]
      decide
    · rw [requestBaseString_other st now h]
      show countKey OAUTH_KEY_SIGNATURE st.requestParameters = 0
      rw [hempty, countKey_nil]
  refine ⟨hbase, rfl, ?_⟩
  show countKey OAUTH_KEY_SIGNATURE
      ((KQOAuthRequestPrivate.requestBaseString st now).1.requestParameters ++
        [(OAUTH_KEY_SIGNATURE, (KQOAuthRequestPrivate.oauthSignature st now).2)]) = 1
  rw [countKey_append, hbase, hsig1]

/-- C6 witness: the amended claim at the sample state, hypotheses discharged
by rfl. -/
theorem C6_amended_signature_once_witness :
    sampleState.requestParameters = [] ∧
    countKey OAUTH_KEY_SIGNATURE sampleState.additionalParams = 0 ∧
    countKey OAUTH_KEY_SIGNATURE
      ((KQOAuthRequestPrivate.signRequest sampleState "1").requestParameters) = 1 :=
  ⟨rfl, rfl, (C6_amended_signature_once sampleState "1" rfl rfl).2.2⟩

theorem secondCall_state (st : RequestState) (now now' : String)
    (h : st.requestType = KQOAuthRequest.TemporaryCredentials) :
    (KQOAuthRequestPrivate.requestBaseString
        (KQOAuthRequest.requestParameters st now).1 now').1.requestParameters =
      qSortParameters
        ((qSortParameters (st.requestParameters ++ tempParams st now) ++
            [(OAUTH_KEY_SIGNATURE, (KQOAuthRequestPrivate.oauthSignature st now).2)]) ++
          tempParams (KQOAuthRequestPrivate.signRequest st now) now') := by
  have hT1 : (KQOAuthRequestPrivate.signRequest st now).requestType =
      KQOAuthRequest.TemporaryCredentials := by
    rw [signRequest_temp st now h]
    exact h
  rw [requestParameters_fst, requestBaseString_temp _ now' hT1,
    signRequest_temp st now h]

/-- C6 counterexample: on a second requestParameters() call on the same
instance, the oauth_signature pair appended by the first call is present in
the stored parameter list at the moment the second base string is computed
from it, refuting "never present" and "appended exactly once". -/
theorem C6_counterexample :
    0 < countKey OAUTH_KEY_SIGNATURE
        ((KQOAuthRequestPrivate.requestBaseString
            (KQOAuthRequest.requestParameters sampleState "100").1
            "100").1.requestParameters) := by
  rw [secondCall_state sampleState "100" "100" rfl, countKey_qSortParameters,
    countKey_append, countKey_append, countKey_singleton, if_pos rfl]
  omega

theorem secondCall_final (st : RequestState) (now now' : String)
    (h : st.requestType = KQOAuthRequest.TemporaryCredentials) :
    (KQOAuthRequest.requestParameters
        (KQOAuthRequest.requestParameters st now).1 now').1.requestParameters =
      qSortParameters
        ((qSortParameters (st.requestParameters ++ tempParams st now) ++
            [(OAUTH_KEY_SIGNATURE, (KQOAuthRequestPrivate.oauthSignature st now).2)]) ++
          tempParams st now') ++
        [(OAUTH_KEY_SIGNATURE,
          (KQOAuthRequestPrivate.oauthSignature
            (KQOAuthRequestPrivate.signRequest st now) now').2)] := by
  have hT1 : (KQOAuthRequestPrivate.signRequest st now).requestType =
      KQOAuthRequest.TemporaryCredentials := by
    rw [signRequest_temp st now h]
    exact h
  rw [requestParameters_fst, requestParameters_fst, signRequest_temp _ now' hT1,
    tempParams_signRequest_temp st now now' h, signRequest_temp st now h]

/-- C10: a second requestParameters() call re-runs prepareRequest on the same
stored list, so every protocol parameter key (including oauth_signature) then
occurs twice in the returned list, each additional parameter occurs twice, and
the first call's oauth_signature entry is in the list the second base string
(and hence signature) is computed from. -/
theorem C10_double_call (st : RequestState) (now now' : String)
    (htype : st.requestType = KQOAuthRequest.TemporaryCredentials)
    (hempty : st.requestParameters = [])
    (hdisj : ∀ p ∈ st.additionalParams,
      p.1 ∉ ([OAUTH_KEY_CALLBACK, OAUTH_KEY_SIGNATURE_METHOD, OAUTH_KEY_CONSUMER_KEY,
        OAUTH_KEY_VERSION, OAUTH_KEY_TIMESTAMP, OAUTH_KEY_NONCE,
        OAUTH_KEY_SIGNATURE] : List String))
    (huniq : ∀ p ∈ st.additionalParams, countKey p.1 st.additionalParams = 1) :
    countKey OAUTH_KEY_SIGNATURE
        ((KQOAuthRequestPrivate.requestBaseString
            (KQOAuthRequest.requestParameters st now).1 now').1.requestParameters) = 1
    ∧ (∀ k ∈ ([OAUTH_KEY_CALLBACK, OAUTH_KEY_SIGNATURE_METHOD, OAUTH_KEY_CONSUMER_KEY,
          OAUTH_KEY_VERSION, OAUTH_KEY_TIMESTAMP, OAUTH_KEY_NONCE,
          OAUTH_KEY_SIGNATURE] : List String),
        countKey k
          ((KQOAuthRequest.requestParameters
              (KQOAuthRequest.requestParameters st now).1 now').1.requestParameters) = 2)
    ∧ (∀ p ∈ st.additionalParams,
        countKey p.1
          ((KQOAuthRequest.requestParameters
              (KQOAuthRequest.requestParameters st now).1 now').1.requestParameters) = 2) := by
  have hz : ∀ k ∈ ([OAUTH_KEY_CALLBACK, OAUTH_KEY_SIGNATURE_METHOD, OAUTH_KEY_CONSUMER_KEY,
      OAUTH_KEY_VERSION, OAUTH_KEY_TIMESTAMP, OAUTH_KEY_NONCE,
      OAUTH_KEY_SIGNATURE] : List String),
      countKey k st.additionalParams = 0 := by
    intro k hk
    apply countKey_eq_zero_of_forall_ne
    intro p hp he
    exact hdisj p hp (he ▸ hk)
  refine ⟨?_, ?_, ?_⟩
  · rw [secondCall_state st now now' htype, countKey_qSortParameters, countKey_append,
      countKey_append, countKey_qSortParameters, countKey_append, hempty, countKey_nil,
      countKey_singleton, if_pos rfl, tempParams_signRequest_temp st now now' htype,
      countKey_tempParams_eq, countKey_tempParams_eq, hz _ (by decide)]
    decide
  · intro k hk
    rw [secondCall_final st now now' htype, countKey_append, countKey_qSortParameters,
      countKey_append, countKey_append, countKey_qSortParameters, countKey_append,
      hempty, countKey_nil, countKey_singleton, countKey_singleton,
      countKey_tempParams_eq, countKey_tempParams_eq, hz k hk]
    fin_cases hk <;> decide
  · intro p hp
    have hpn := hdisj p hp
    have hz6 : countKey p.1
        [(OAUTH_KEY_CALLBACK, ""), (OAUTH_KEY_SIGNATURE_METHOD, ""),
         (OAUTH_KEY_CONSUMER_KEY, ""), (OAUTH_KEY_VERSION, ""),
         (OAUTH_KEY_TIMESTAMP, ""), (OAUTH_KEY_NONCE, "")] = 0 := by
      apply countKey_eq_zero_of_forall_ne
      intro q hq he
      refine hpn (he ▸ ?_)
      fin_cases hq <;> decide
    have hsig_ne : OAUTH_KEY_SIGNATURE ≠ p.1 := by
      intro he
      exact hpn (by rw [← he]; decide)
    rw [secondCall_final st now now' htype, countKey_append, countKey_qSortParameters,
      countKey_append, countKey_append, countKey_qSortParameters, countKey_append,
      hempty, countKey_nil, countKey_singleton, if_neg hsig_ne,
      countKey_tempParams_eq, countKey_tempParams_eq, hz6, huniq p hp,
      countKey_singleton, if_neg hsig_ne]

/-- The sample state with one additional parameter, for the C10 witness. -/
def sampleStateZ : RequestState :=
  { sampleState with additionalParams := [("zeta", "z")] }

/-- C10 witness: the double-call claim at a concrete state with one additional
parameter, all hypotheses discharged by evaluation. -/
theorem C10_double_call_witness :
    sampleStateZ.requestType = KQOAuthRequest.TemporaryCredentials ∧
    sampleStateZ.requestParameters = [] ∧
    countKey OAUTH_KEY_SIGNATURE
      ((KQOAuthRequestPrivate.requestBaseString
          (KQOAuthRequest.requestParameters sampleStateZ "1").1
          "2").1.requestParameters) = 1 :=
  ⟨rfl, rfl,
   (C10_double_call sampleStateZ "1" "2" rfl rfl (by decide) (by decide)).1⟩

end KQOAuth
